import Mathlib

/-!
Verification development for the LaunchSim backend simulation engine
(`src/launchsim/backend/server.py`).

The Python code is shallowly embedded over exact rationals (ℚ in place of
IEEE floats).  Python operations that can raise (`float` division by zero,
indexing an empty list, a `while` loop that never exits) are modelled with
`Except String`; a function that the source code cannot observe — the
external RocketPy engine and the numpy normal sampler — is passed in as an
oracle argument.  All configuration records mirror the pydantic request and
response models field by field.
-/

deriving instance DecidableEq for Except

/-- Python float division: raises `ZeroDivisionError` on a zero divisor,
mirroring CPython's error text for floats. -/
def pydiv (a b : ℚ) : Except String ℚ :=
  if b = 0 then Except.error "float division by zero" else Except.ok (a / b)

/-- Enumeration `MotorType` (server.py lines 89-92). -/
inductive MotorType where
  | solid | hybrid | liquid
deriving DecidableEq

/-- Enumeration `NoseShape` (server.py lines 75-82). -/
inductive NoseShape where
  | conical | ogive | parabolic | elliptical | vonKarman | lvHaack | powerSeries
deriving DecidableEq

/-- Enumeration `AtmosphereType` (server.py lines 94-99). -/
inductive AtmosphereType where
  | standard | custom | forecast | reanalysis | windy
deriving DecidableEq

/-- `EnvironmentConfig` (server.py lines 103-111).  No field carries a value
constraint: pydantic `Field` is used only for defaults and descriptions. -/
structure EnvironmentConfig where
  latitude : ℚ
  longitude : ℚ
  elevation : ℚ
  date : Option String
  atmosphere_type : AtmosphereType
  wind_speed : ℚ
  wind_direction : ℚ
deriving DecidableEq

/-- `MotorConfig` (server.py lines 113-130).  The thrust curve, a Python
`List[List[float]]` of `[time, thrust]` pairs, is modelled as a list of
pairs.  No field carries a value constraint. -/
structure MotorConfig where
  motor_type : MotorType
  thrust_source : Option String
  burn_time : ℚ
  total_impulse : ℚ
  avg_thrust : ℚ
  propellant_mass : ℚ
  dry_mass : ℚ
  nozzle_radius : ℚ
  throat_radius : ℚ
  grain_outer_radius : ℚ
  grain_initial_inner_radius : ℚ
  grain_initial_height : ℚ
  grain_number : ℤ
  grain_separation : ℚ
  grain_density : ℚ
  thrust_curve : Option (List (ℚ × ℚ))
deriving DecidableEq

/-- `NoseConfig` (server.py lines 132-137). -/
structure NoseConfig where
  length : ℚ
  kind : NoseShape
  base_radius : Option ℚ
  rocket_radius : Option ℚ
deriving DecidableEq

/-- `FinConfig` (server.py lines 139-148).  `n` is a Python `int` with no
lower bound. -/
structure FinConfig where
  n : ℤ
  root_chord : ℚ
  tip_chord : ℚ
  span : ℚ
  sweep_length : Option ℚ
  sweep_angle : Option ℚ
  cant_angle : ℚ
  position : ℚ
deriving DecidableEq

/-- `ParachuteConfig` (server.py lines 150-157).  `trigger` is a plain
string with no schema-level parsing. -/
structure ParachuteConfig where
  name : String
  cd_s : ℚ
  trigger : String
  sampling_rate : ℚ
  lag : ℚ
  noise : List ℚ
deriving DecidableEq

/-- `RocketConfig` (server.py lines 159-171). -/
structure RocketConfig where
  mass : ℚ
  radius : ℚ
  inertia_i : ℚ
  inertia_z : ℚ
  center_of_mass : ℚ
  power_off_drag : Option (List (ℚ × ℚ))
  power_on_drag : Option (List (ℚ × ℚ))
  nose : Option NoseConfig
  fins : Option FinConfig
  motor : MotorConfig
  parachutes : Option (List ParachuteConfig)
deriving DecidableEq

/-- `FlightConfig` (server.py lines 173-180). -/
structure FlightConfig where
  rail_length : ℚ
  inclination : ℚ
  heading : ℚ
  max_time : ℚ
  max_time_step : ℚ
  terminate_on_apogee : Bool
deriving DecidableEq

/-- `SimulationRequest` (server.py lines 182-187). -/
structure SimulationRequest where
  environment : EnvironmentConfig
  rocket : RocketConfig
  flight : FlightConfig
  output_sampling_rate : ℚ
deriving DecidableEq

/-- `MonteCarloRequest` (server.py lines 189-196).  `num_simulations` is
used only through `range(...)`, so it is modelled as ℕ. -/
structure MonteCarloRequest where
  base_simulation : SimulationRequest
  num_simulations : ℕ
  wind_speed_std : ℚ
  wind_direction_std : ℚ
  mass_std : ℚ
  thrust_std : ℚ
deriving DecidableEq

/-- `TrajectoryPoint` (server.py lines 200-217). -/
structure TrajectoryPoint where
  time : ℚ
  x : ℚ
  y : ℚ
  z : ℚ
  vx : ℚ
  vy : ℚ
  vz : ℚ
  ax : ℚ
  ay : ℚ
  az : ℚ
  pitch : ℚ
  yaw : ℚ
  roll : ℚ
  mach : ℚ
  dynamic_pressure : ℚ
  angle_of_attack : ℚ
deriving DecidableEq

/-- `FlightEvent` (server.py lines 219-224). -/
structure FlightEvent where
  name : String
  time : ℚ
  altitude : Option ℚ
  velocity : Option ℚ
deriving DecidableEq

/-- `SimulationResult` (server.py lines 226-249). -/
structure SimulationResult where
  success : Bool
  message : String
  apogee : ℚ
  apogee_time : ℚ
  max_velocity : ℚ
  max_velocity_time : ℚ
  max_acceleration : ℚ
  max_mach : ℚ
  flight_time : ℚ
  landing_velocity : ℚ
  landing_position : List ℚ
  out_of_rail_velocity : ℚ
  out_of_rail_stability : ℚ
  trajectory : List TrajectoryPoint
  events : List FlightEvent
  stability_margin_initial : ℚ
  stability_margin_burnout : ℚ
  cp_position : ℚ
  cg_position : ℚ
deriving DecidableEq

/-- `MonteCarloResult` (server.py lines 268-278). -/
structure MonteCarloResult where
  success : Bool
  num_simulations : ℕ
  apogee_mean : ℚ
  apogee_std : ℚ
  apogee_min : ℚ
  apogee_max : ℚ
  landing_dispersion_mean : ℚ
  landing_dispersion_std : ℚ
  landing_positions : List (List ℚ)
deriving DecidableEq

/-- Strict ordering of trajectory points by their `time` field. -/
abbrev timeLt (p q : TrajectoryPoint) : Prop := p.time < q.time

instance : DecidableRel timeLt := fun p q => inferInstanceAs (Decidable (p.time < q.time))

/-- Strict ordering of thrust-curve points by their time component. -/
abbrev curveTimeLt (p q : ℚ × ℚ) : Prop := p.1 < q.1

instance : DecidableRel curveTimeLt := fun p q => inferInstanceAs (Decidable (p.1 < q.1))

instance : IsTrans TrajectoryPoint timeLt :=
  ⟨fun _ _ _ h1 h2 => lt_trans h1 h2⟩

instance : IsTrans (ℚ × ℚ) curveTimeLt :=
  ⟨fun _ _ _ h1 h2 => lt_trans h1 h2⟩

/-- Default `EnvironmentConfig` from the pydantic `Field` defaults
(server.py lines 103-111). -/
def defaultEnvironment : EnvironmentConfig :=
  { latitude := 32990254/1000000, longitude := -106974998/1000000, elevation := 1400,
    date := none, atmosphere_type := AtmosphereType.standard,
    wind_speed := 0, wind_direction := 0 }

/-- Default `MotorConfig` from the pydantic `Field` defaults
(server.py lines 113-130). -/
def defaultMotor : MotorConfig :=
  { motor_type := MotorType.solid, thrust_source := none,
    burn_time := 3/2, total_impulse := 100, avg_thrust := 50,
    propellant_mass := 1/20, dry_mass := 3/100,
    nozzle_radius := 3/200, throat_radius := 1/200,
    grain_outer_radius := 1/50, grain_initial_inner_radius := 1/125,
    grain_initial_height := 1/20, grain_number := 1,
    grain_separation := 1/500, grain_density := 1700, thrust_curve := none }

/-- Default `RocketConfig` from the pydantic `Field` defaults
(server.py lines 159-171), with the default motor attached. -/
def defaultRocket : RocketConfig :=
  { mass := 1/2, radius := 1/40, inertia_i := 1/100, inertia_z := 1/1000,
    center_of_mass := 3/10, power_off_drag := none, power_on_drag := none,
    nose := none, fins := none, motor := defaultMotor, parachutes := none }

/-- Default `FlightConfig` from the pydantic `Field` defaults
(server.py lines 173-180). -/
def defaultFlight : FlightConfig :=
  { rail_length := 2, inclination := 85, heading := 0,
    max_time := 600, max_time_step := 1/100, terminate_on_apogee := false }

/-- Default `SimulationRequest` (server.py lines 182-187). -/
def defaultRequest : SimulationRequest :=
  { environment := defaultEnvironment, rocket := defaultRocket,
    flight := defaultFlight, output_sampling_rate := 100 }

/-- Pydantic construction of a `MotorConfig` performs no value validation:
the class declares no validators and no `gt`/`ge` bounds on any `Field`
(server.py lines 113-130), so any well-typed record is accepted. -/
def MotorConfig.validateConfig (c : MotorConfig) : Except String MotorConfig :=
  Except.ok c

/-- Pydantic construction of a `FinConfig` performs no value validation
(server.py lines 139-148); in particular `n < 1` is accepted. -/
def FinConfig.validateConfig (c : FinConfig) : Except String FinConfig :=
  Except.ok c

/-- Pydantic construction of a `ParachuteConfig` performs no value
validation (server.py lines 150-157); the `trigger` string is not parsed at
construction time. -/
def ParachuteConfig.validateConfig (c : ParachuteConfig) : Except String ParachuteConfig :=
  Except.ok c

/-- Thrust curve synthesized from burn time and average thrust when no
explicit curve is supplied (server.py lines 470-478). -/
def syntheticThrustCurve (c : MotorConfig) : List (ℚ × ℚ) :=
  [(0, 0),
   (1/50, c.avg_thrust * (3/2)),
   (c.burn_time * (1/10), c.avg_thrust * (6/5)),
   (c.burn_time * (1/2), c.avg_thrust),
   (c.burn_time * (9/10), c.avg_thrust * (3/5)),
   (c.burn_time, 0)]

/-- Thrust source selection in `create_rocketpy_motor` (server.py lines
467-478): the Python test `if config.thrust_curve:` is truthiness, so both
`None` and an empty list fall back to the synthesized curve. -/
def motorThrustSource (c : MotorConfig) : List (ℚ × ℚ) :=
  match c.thrust_curve with
  | some (p :: rest) => p :: rest
  | _ => syntheticThrustCurve c

/-- Response payload of the `/api/stability` endpoint
(server.py lines 1021-1029). -/
structure StabilityResponse where
  cp_position : ℚ
  cg_position : ℚ
  stability_margin : ℚ
  stable : Bool
  recommendation : String
deriving DecidableEq

/-- The `calculate_stability` endpoint handler (server.py lines 985-1029).
Divisions whose divisor is request-dependent are checked: with fins present
and `radius = 0` the expression `(span / (2 * radius)) ** 2` raises, as do
the weighted-average and margin divisions on a zero divisor.  The dead
local `fin_area` of the source (computed, never read) is omitted. -/
def calculate_stability (rocket : RocketConfig) : Except String StabilityResponse :=
  let radius := rocket.radius
  let nose_length : ℚ := match rocket.nose with | some nc => nc.length | none => 1/10
  let nose_cp := nose_length * (466/1000)
  let nose_cn : ℚ := 2
  let finPart : Except String (ℚ × ℚ) :=
    match rocket.fins with
    | some fins =>
        (pydiv fins.span (2 * radius)).map
          (fun sr => (4 * (fins.n : ℚ) * sr ^ 2, |fins.position| + fins.root_chord * (2/5)))
    | none => Except.ok (4, 1/5)
  match finPart with
  | Except.error e => Except.error e
  | Except.ok (fin_cn, fin_cp) =>
    match pydiv (nose_cn * nose_cp + fin_cn * fin_cp) (nose_cn + fin_cn) with
    | Except.error e => Except.error e
    | Except.ok cp =>
      match pydiv (cp - rocket.center_of_mass) (2 * radius) with
      | Except.error e => Except.error e
      | Except.ok margin =>
        Except.ok
          { cp_position := cp, cg_position := rocket.center_of_mass,
            stability_margin := margin,
            stable := decide (1 < margin),
            recommendation :=
              if 3/2 < margin then "Stable"
              else if 1 < margin then "Marginally stable"
              else "Unstable - add weight to nose or move fins aft" }

/-- Loop context for the mock trajectory loop of `create_mock_result`
(server.py lines 757-787): the quantities the `while` loop reads. -/
structure MockCtx where
  thrust : ℚ
  mass : ℚ
  prop : ℚ
  bt : ℚ
  g : ℚ
  dt : ℚ
  cap : ℚ
deriving DecidableEq

/-- Instantaneous acceleration inside the mock loop (server.py lines
762-765): during burn the mass depletes linearly, and the two divisions
(`prop * t / burn_time` and the thrust division) follow Python float
semantics. -/
def mockAccel (c : MockCtx) (t : ℚ) : Except String ℚ :=
  if t < c.bt then
    match pydiv (c.prop * t) c.bt with
    | Except.error e => Except.error e
    | Except.ok depleted =>
      (pydiv c.thrust (c.mass - depleted)).map (fun q => q - c.g)
  else Except.ok (-c.g)

/-- One appended trajectory sample of the mock loop (server.py lines
779-786): altitude is clamped at zero, Mach uses the fixed 340 m/s sound
speed, dynamic pressure uses the fixed 1.225 kg/m³ density. -/
def mockPoint (t v z a : ℚ) : TrajectoryPoint :=
  { time := t, x := 0, y := 0, z := max 0 z, vx := 0, vy := 0, vz := v,
    ax := 0, ay := 0, az := a, pitch := 90, yaw := 0, roll := 0,
    mach := v / 340, dynamic_pressure := 1/2 * (1225/1000) * v ^ 2,
    angle_of_attack := 0 }

/-- Velocity/altitude update of one mock-loop iteration (server.py lines
767-774): at `t == 0` both start at zero, otherwise they are read off the
last appended point (`trajectory[-1]`, an `IndexError` on an empty list). -/
def mockStep (c : MockCtx) (traj : List TrajectoryPoint) (t a : ℚ) : Except String (ℚ × ℚ) :=
  if t = 0 then Except.ok (0, 0)
  else
    match traj.getLast? with
    | none => Except.error "list index out of range"
    | some prev =>
      Except.ok (prev.vz + a * c.dt, prev.z + (prev.vz + a * c.dt) * c.dt)

/-- The mock `while` loop (server.py lines 760-787), made structurally
recursive on a fuel parameter.  Exhausted fuel models a loop that never
exits (which the Python code does when `dt < 0` and the horizon cap is
positive); with sufficient fuel the returned pair is exactly the Python
`(trajectory, t)` after the loop. -/
def mockLoop (c : MockCtx) : ℕ → List TrajectoryPoint → ℚ → Except String (List TrajectoryPoint × ℚ)
  | 0, traj, t =>
    if t < c.cap then Except.error "nonterminating loop" else Except.ok (traj, t)
  | fuel + 1, traj, t =>
    if t < c.cap then
      match mockAccel c t with
      | Except.error e => Except.error e
      | Except.ok a =>
        match mockStep c traj t a with
        | Except.error e => Except.error e
        | Except.ok (v, z) =>
          if z < 0 ∧ c.bt < t then Except.ok (traj, t)
          else mockLoop c fuel (traj ++ [mockPoint t v z a]) (t + c.dt)
    else Except.ok (traj, t)

/-- Liftoff mass in `create_mock_result` (server.py line 737). -/
def mockLiftoffMass (req : SimulationRequest) : ℚ :=
  req.rocket.mass + req.rocket.motor.propellant_mass + req.rocket.motor.dry_mass

/-- Mid-burn mass in `create_mock_result` (server.py line 745). -/
def mockAvgMass (req : SimulationRequest) : ℚ :=
  mockLiftoffMass req - req.rocket.motor.propellant_mass / 2

/-- Net burn acceleration (server.py line 746), as a total function; it is
only used after the divisor `mockAvgMass` has been checked nonzero. -/
def mockABurn (req : SimulationRequest) : ℚ :=
  req.rocket.motor.avg_thrust / mockAvgMass req - 981/100

/-- Burnout velocity (server.py line 747). -/
def mockVBurnout (req : SimulationRequest) : ℚ :=
  mockABurn req * req.rocket.motor.burn_time

/-- Burnout altitude (server.py line 748). -/
def mockHBurnout (req : SimulationRequest) : ℚ :=
  1/2 * mockABurn req * req.rocket.motor.burn_time ^ 2

/-- Coast time to apogee (server.py line 751). -/
def mockCoastTime (req : SimulationRequest) : ℚ :=
  mockVBurnout req / (981/100)

/-- Coast altitude gain (server.py line 752). -/
def mockHCoast (req : SimulationRequest) : ℚ :=
  mockVBurnout req * mockCoastTime req - 1/2 * (981/100) * mockCoastTime req ^ 2

/-- Mock apogee (server.py line 754). -/
def mockApogee (req : SimulationRequest) : ℚ :=
  mockHBurnout req + mockHCoast req

/-- Mock apogee time (server.py line 755). -/
def mockApogeeTime (req : SimulationRequest) : ℚ :=
  req.rocket.motor.burn_time + mockCoastTime req

/-- Loop horizon cap, `apogee_time * 2.5` (server.py line 761). -/
def mockCap (req : SimulationRequest) : ℚ :=
  mockApogeeTime req * (5/2)

/-- Loop context assembled from the request, given the output timestep. -/
def mockCtxOf (req : SimulationRequest) (dt : ℚ) : MockCtx :=
  { thrust := req.rocket.motor.avg_thrust, mass := mockLiftoffMass req,
    prop := req.rocket.motor.propellant_mass, bt := req.rocket.motor.burn_time,
    g := 981/100, dt := dt, cap := mockCap req }

/-- Fuel bound for the mock loop: one more than the step count
`ceil(cap / dt)`.  For `dt > 0` this provably never runs out. -/
def mockFuel (req : SimulationRequest) (dt : ℚ) : ℕ :=
  (Int.ceil (mockCap req / dt)).toNat + 1

/-- `create_mock_result` (server.py lines 734-816).  The two raising
divisions of the source are checked in source order: the burn-acceleration
division by `avg_mass` (line 746) and `dt = 1.0 / output_sampling_rate`
(line 758); everything in between is pure arithmetic, hoisted into the
closed-form helpers above. -/
def create_mock_result (req : SimulationRequest) : Except String SimulationResult :=
  if mockAvgMass req = 0 then Except.error "float division by zero"
  else if req.output_sampling_rate = 0 then Except.error "float division by zero"
  else
    match mockLoop (mockCtxOf req (1 / req.output_sampling_rate))
        (mockFuel req (1 / req.output_sampling_rate)) [] 0 with
    | Except.error e => Except.error e
    | Except.ok (trajectory, tEnd) =>
      Except.ok
        { success := true,
          message := "Mock simulation (RocketPy not installed)",
          apogee := mockApogee req,
          apogee_time := mockApogeeTime req,
          max_velocity := mockVBurnout req,
          max_velocity_time := req.rocket.motor.burn_time,
          max_acceleration := mockABurn req,
          max_mach := mockVBurnout req / 340,
          flight_time := tEnd,
          landing_velocity :=
            match trajectory.getLast? with | some p => |p.vz| | none => 0,
          landing_position := [0, 0],
          out_of_rail_velocity := 20,
          out_of_rail_stability := 2,
          trajectory := trajectory,
          events :=
            [{ name := "liftoff", time := 0, altitude := some 0, velocity := none },
             { name := "burnout", time := req.rocket.motor.burn_time,
               altitude := none, velocity := none },
             { name := "apogee", time := mockApogeeTime req,
               altitude := some (mockApogee req), velocity := none },
             { name := "landing", time := tEnd, altitude := none,
               velocity := some (match trajectory.getLast? with | some p => p.vz | none => 0) }],
          stability_margin_initial := 2,
          stability_margin_burnout := 5/2,
          cp_position := 1/4,
          cg_position := 1/5 }

/-- The continuous solution object the external RocketPy engine hands back
for one flight (server.py lines 609-719).  The engine is out of scope, so
its accessors are oracle fields: `domainOk t` says whether sampling at `t`
succeeds (the inner `try` of lines 650-672 breaks on the first failure);
the `Option` fields model `hasattr` guards; `static_margin` is `none` when
the margin accessor raises (lines 692-697). -/
structure FlightSolution where
  t_final : ℚ
  domainOk : ℚ → Bool
  x : ℚ → ℚ
  y : ℚ → ℚ
  z : ℚ → ℚ
  vx : ℚ → ℚ
  vy : ℚ → ℚ
  vz : ℚ → ℚ
  accelX : Option (ℚ → ℚ)
  accelY : Option (ℚ → ℚ)
  accelZ : Option (ℚ → ℚ)
  attitude_angle : Option (ℚ → ℚ)
  mach_number : ℚ → ℚ
  dynamic_pressure : ℚ → ℚ
  angle_of_attack : ℚ → ℚ
  out_of_rail_time : ℚ
  out_of_rail_velocity : ℚ
  motor_burn_time : ℚ
  apogee : ℚ
  apogee_time : ℚ
  max_speed : ℚ
  max_speed_time : Option ℚ
  max_acceleration : Option ℚ
  max_mach_number : Option ℚ
  impact_time : Option ℚ
  impact_velocity : Option ℚ
  x_impact : Option ℚ
  y_impact : Option ℚ
  out_of_rail_static_margin : Option ℚ
  static_margin : Option (ℚ → ℚ)
  center_of_mass_zero : ℚ

/-- An engine oracle: building environment, motor, rocket and flight for a
request either yields a solution or raises with some message.  This stands
for everything the `try` block of `run_simulation` does up to line 643. -/
abbrev Engine := SimulationRequest → Except String FlightSolution

/-- One resampled trajectory point of the high-fidelity path (server.py
lines 653-670), with `hasattr` fallbacks to 0. -/
def trajPointHF (sol : FlightSolution) (t : ℚ) : TrajectoryPoint :=
  { time := t, x := sol.x t, y := sol.y t, z := sol.z t,
    vx := sol.vx t, vy := sol.vy t, vz := sol.vz t,
    ax := match sol.accelX with | some f => f t | none => 0,
    ay := match sol.accelY with | some f => f t | none => 0,
    az := match sol.accelZ with | some f => f t | none => 0,
    pitch := match sol.attitude_angle with | some f => f t | none => 0,
    yaw := 0, roll := 0,
    mach := sol.mach_number t, dynamic_pressure := sol.dynamic_pressure t,
    angle_of_attack := sol.angle_of_attack t }

/-- The zeroed failure result built by the `except` clause of
`run_simulation` (server.py lines 722-732). -/
def failedResult (e : String) : SimulationResult :=
  { success := false, message := "Simulation failed: " ++ e,
    apogee := 0, apogee_time := 0, max_velocity := 0, max_velocity_time := 0,
    max_acceleration := 0, max_mach := 0, flight_time := 0, landing_velocity := 0,
    landing_position := [0, 0], out_of_rail_velocity := 0, out_of_rail_stability := 0,
    trajectory := [], events := [],
    stability_margin_initial := 0, stability_margin_burnout := 0,
    cp_position := 0, cg_position := 0 }

/-- `numpy.arange(start, stop, step)` over exact rationals: the element
count is `max 0 (ceil ((stop - start) / step))`.  Only called with a
nonzero step. -/
def arangeQ (start stop step : ℚ) : List ℚ :=
  (List.range (Int.ceil ((stop - start) / step)).toNat).map
    (fun (i : ℕ) => start + (i : ℚ) * step)

/-- The high-fidelity path of `run_simulation` (server.py lines 609-732):
on any engine exception — including the `dt = 1.0 / output_sampling_rate`
division when the rate is zero — the `except` clause returns the zeroed
failure result; otherwise the engine solution is resampled on the arange
grid until the first point outside the solution domain, events are
assembled with liftoff first, and the summary is read off the solution
with `hasattr` fallbacks. -/
def run_simulationHF (engine : Engine) (req : SimulationRequest) : SimulationResult :=
  match engine req with
  | Except.error e => failedResult e
  | Except.ok sol =>
    match pydiv 1 req.output_sampling_rate with
    | Except.error e => failedResult e
    | Except.ok dt =>
      let times := arangeQ 0 sol.t_final dt
      let trajectory := (times.takeWhile sol.domainOk).map (trajPointHF sol)
      let margins : ℚ × ℚ :=
        match sol.static_margin with
        | some f => (f 0, f sol.motor_burn_time)
        | none => (2, 2)
      let events :=
        [{ name := "liftoff", time := 0, altitude := some 0, velocity := none },
         { name := "rail_departure", time := sol.out_of_rail_time,
           altitude := none, velocity := some sol.out_of_rail_velocity },
         { name := "burnout", time := sol.motor_burn_time,
           altitude := none, velocity := none },
         { name := "apogee", time := sol.apogee_time,
           altitude := some sol.apogee, velocity := none }] ++
        (match sol.impact_time with
         | some it =>
           if it = 0 then []
           else [{ name := "landing", time := it, altitude := none,
                   velocity := some (sol.impact_velocity.getD 0) }]
         | none => [])
      { success := true, message := "Simulation completed successfully",
        apogee := sol.apogee, apogee_time := sol.apogee_time,
        max_velocity := sol.max_speed,
        max_velocity_time := sol.max_speed_time.getD 0,
        max_acceleration := sol.max_acceleration.getD 0,
        max_mach := sol.max_mach_number.getD 0,
        flight_time := sol.t_final,
        landing_velocity := sol.impact_velocity.getD 0,
        landing_position := [sol.x_impact.getD 0, sol.y_impact.getD 0],
        out_of_rail_velocity := sol.out_of_rail_velocity,
        out_of_rail_stability := sol.out_of_rail_static_margin.getD margins.1,
        trajectory := trajectory, events := events,
        stability_margin_initial := margins.1,
        stability_margin_burnout := margins.2,
        cp_position := 0, cg_position := sol.center_of_mass_zero }

/-- `run_simulation` (server.py lines 602-732): with no engine installed it
calls `create_mock_result` outside any `try` (so mock-path exceptions
propagate); with an engine it never raises. -/
def run_simulation (engine : Option Engine) (req : SimulationRequest) : Except String SimulationResult :=
  match engine with
  | none => create_mock_result req
  | some eng => Except.ok (run_simulationHF eng req)

/-- `numpy.mean` of a rational list (sum over length). -/
def meanQ (l : List ℚ) : ℚ := l.sum / l.length

/-- `numpy.std` (population standard deviation): the square root of the
mean squared deviation, with the square root supplied as an oracle since
it leaves ℚ. -/
def stdQ (sqrtFn : ℚ → ℚ) (l : List ℚ) : ℚ :=
  sqrtFn (meanQ (l.map (fun v => (v - meanQ l) ^ 2)))

/-- `numpy.min` of a nonempty rational list. -/
def minQ : List ℚ → ℚ
  | [] => 0
  | v :: rest => rest.foldl min v

/-- `numpy.max` of a nonempty rational list. -/
def maxQ : List ℚ → ℚ
  | [] => 0
  | v :: rest => rest.foldl max v

/-- The all-zero Monte Carlo result returned when no iteration succeeded
(server.py lines 961-968). -/
def mcZero : MonteCarloResult :=
  { success := false, num_simulations := 0,
    apogee_mean := 0, apogee_std := 0, apogee_min := 0, apogee_max := 0,
    landing_dispersion_mean := 0, landing_dispersion_std := 0,
    landing_positions := [] }

/-- A normal-sampler oracle: `nrand mean std k` is the value the `k`-th
call of `np.random.normal(mean, std)` returns. -/
abbrev RandOracle := ℚ → ℚ → ℕ → ℚ

/-- The per-iteration perturbed request of the Monte Carlo loop
(server.py lines 944-952): iteration `i` adds normal noise to wind speed,
wind direction and rocket mass, drawing three samples in that order. -/
def mcPerturbed (nrand : RandOracle) (mc : MonteCarloRequest) (i : ℕ) : SimulationRequest :=
  let base := mc.base_simulation
  { base with
    environment :=
      { base.environment with
        wind_speed := base.environment.wind_speed + nrand 0 mc.wind_speed_std (3 * i),
        wind_direction := base.environment.wind_direction + nrand 0 mc.wind_direction_std (3 * i + 1) },
    rocket := { base.rocket with mass := base.rocket.mass + nrand 0 mc.mass_std (3 * i + 2) } }

/-- The sequence of per-iteration simulation results of the Monte Carlo
loop (server.py lines 943-955). -/
def mcRuns (engine : Engine) (nrand : RandOracle) (mc : MonteCarloRequest) : List SimulationResult :=
  (List.range mc.num_simulations).map (fun i => run_simulationHF engine (mcPerturbed nrand mc i))

/-- Aggregation over the retained (successful) runs (server.py lines
957-983).  The source appends each successful result and its landing
position to two parallel lists; here the position list is the image of the
retained results, which is the same thing. -/
def mcAggregate (sqrtFn : ℚ → ℚ) (results : List SimulationResult) : MonteCarloResult :=
  if results.isEmpty then mcZero
  else
    let landing_positions := results.map (fun r => r.landing_position)
    let apogees := results.map (fun r => r.apogee)
    let dispersions :=
      landing_positions.map (fun p => sqrtFn ((p.getD 0 0) ^ 2 + (p.getD 1 0) ^ 2))
    { success := true, num_simulations := results.length,
      apogee_mean := meanQ apogees, apogee_std := stdQ sqrtFn apogees,
      apogee_min := minQ apogees, apogee_max := maxQ apogees,
      landing_dispersion_mean := meanQ dispersions,
      landing_dispersion_std := stdQ sqrtFn dispersions,
      landing_positions := landing_positions.take 100 }

/-- The engine-available branch of the `/api/montecarlo` endpoint
(server.py lines 939-983): run every iteration, keep the successful ones,
aggregate. -/
def monte_carloHF (sqrtFn : ℚ → ℚ) (engine : Engine) (nrand : RandOracle)
    (mc : MonteCarloRequest) : MonteCarloResult :=
  mcAggregate sqrtFn ((mcRuns engine nrand mc).filter (fun r => r.success))

/-- The mock branch of the `/api/montecarlo` endpoint taken when RocketPy
is not installed (server.py lines 924-937): canned statistics and randomly
drawn landing positions, two draws per position. -/
def monte_carloMock (nrand : RandOracle) (mc : MonteCarloRequest) : MonteCarloResult :=
  { success := true, num_simulations := mc.num_simulations,
    apogee_mean := 500, apogee_std := 25, apogee_min := 450, apogee_max := 550,
    landing_dispersion_mean := 50, landing_dispersion_std := 20,
    landing_positions :=
      (List.range (min mc.num_simulations 100)).map
        (fun k => [nrand 0 50 (2 * k), nrand 0 50 (2 * k + 1)]) }

/-- The `/api/montecarlo` endpoint (server.py lines 916-983), dispatching
on engine availability. -/
def monte_carlo (sqrtFn : ℚ → ℚ) (engine : Option Engine) (nrand : RandOracle)
    (mc : MonteCarloRequest) : MonteCarloResult :=
  match engine with
  | none => monte_carloMock nrand mc
  | some eng => monte_carloHF sqrtFn eng nrand mc

/-- Projection of the two contract fields a caller sees first. -/
def successMessage (r : SimulationResult) : Bool × String := (r.success, r.message)

/-- The closed-form apogee exactly as claim C6 words it: burn acceleration
`a = thrust / (liftoffMass - propellantMass / 2) - g` with `liftoffMass`
the rocket dry mass plus propellant mass plus motor dry mass, burnout
altitude `a * burnTime^2 / 2`, coast time `v / g`, coast altitude
`v * coastTime - g * coastTime^2 / 2`, apogee their sum.  Written from the
claim for comparison against the code-side `mockApogee`. -/
def specApogeeFormula (req : SimulationRequest) : ℚ :=
  (req.rocket.motor.avg_thrust /
      ((req.rocket.mass + req.rocket.motor.propellant_mass + req.rocket.motor.dry_mass)
        - req.rocket.motor.propellant_mass / 2) - 981/100)
    * req.rocket.motor.burn_time ^ 2 / 2 +
  ((req.rocket.motor.avg_thrust /
      ((req.rocket.mass + req.rocket.motor.propellant_mass + req.rocket.motor.dry_mass)
        - req.rocket.motor.propellant_mass / 2) - 981/100) * req.rocket.motor.burn_time)
    * (((req.rocket.motor.avg_thrust /
      ((req.rocket.mass + req.rocket.motor.propellant_mass + req.rocket.motor.dry_mass)
        - req.rocket.motor.propellant_mass / 2) - 981/100) * req.rocket.motor.burn_time) / (981/100))
  - (981/100)
    * (((req.rocket.motor.avg_thrust /
      ((req.rocket.mass + req.rocket.motor.propellant_mass + req.rocket.motor.dry_mass)
        - req.rocket.motor.propellant_mass / 2) - 981/100) * req.rocket.motor.burn_time) / (981/100)) ^ 2
    / 2

/-- The closed-form apogee time exactly as claim C6 words it: burn time
plus coast time `v / g`.  Written from the claim for comparison against
the code-side `mockApogeeTime`. -/
def specApogeeTimeFormula (req : SimulationRequest) : ℚ :=
  req.rocket.motor.burn_time +
  ((req.rocket.motor.avg_thrust /
      ((req.rocket.mass + req.rocket.motor.propellant_mass + req.rocket.motor.dry_mass)
        - req.rocket.motor.propellant_mass / 2) - 981/100) * req.rocket.motor.burn_time)
    / (981/100)

/-- A request whose mock physics terminates immediately (zero thrust, loop
horizon cap 0), used to instantiate theorems about the fallback path. -/
def mockProbeReq : SimulationRequest :=
  { defaultRequest with
    output_sampling_rate := 1,
    rocket :=
      { defaultRocket with
        mass := 1,
        motor :=
          { defaultMotor with
            avg_thrust := 0, propellant_mass := 0, dry_mass := 0, burn_time := 1 } } }

/-- The concrete fallback result for `mockProbeReq`, written out: zero
thrust gives burn acceleration -981/100, burnout velocity -981/100, coast
time -1, apogee and apogee time 0, so the loop horizon cap is 0 and the
trajectory is empty. -/
def mockProbeResult : SimulationResult :=
  { success := true,
    message := "Mock simulation (RocketPy not installed)",
    apogee := 0, apogee_time := 0,
    max_velocity := -981/100, max_velocity_time := 1,
    max_acceleration := -981/100, max_mach := -981/34000,
    flight_time := 0, landing_velocity := 0, landing_position := [0, 0],
    out_of_rail_velocity := 20, out_of_rail_stability := 2,
    trajectory := [],
    events :=
      [{ name := "liftoff", time := 0, altitude := some 0, velocity := none },
       { name := "burnout", time := 1, altitude := none, velocity := none },
       { name := "apogee", time := 0, altitude := some 0, velocity := none },
       { name := "landing", time := 0, altitude := none, velocity := some 0 }],
    stability_margin_initial := 2, stability_margin_burnout := 5/2,
    cp_position := 1/4, cg_position := 1/5 }

/-- A degenerate request whose combined liftoff mass is zero, so the mock
path's burn-acceleration division raises. -/
def c2zeroReq : SimulationRequest :=
  { defaultRequest with
    rocket :=
      { defaultRocket with
        mass := 0,
        motor := { defaultMotor with propellant_mass := 0, dry_mass := 0 } } }

/-- A request whose motor has non-positive burn time (an invalid
configuration in the sense of claim C3). -/
def c3req : SimulationRequest :=
  { defaultRequest with
    rocket := { defaultRocket with motor := { defaultMotor with burn_time := -1 } } }

/-- A motor with a short positive burn time and no explicit thrust curve,
falsifying time-monotonicity of the synthesized curve. -/
def c4motor : MotorConfig := { defaultMotor with burn_time := 1/10 }

/-- A motor with a long burn time used to instantiate the amended claim
C4. -/
def c4longMotor : MotorConfig := { defaultMotor with burn_time := 2 }

/-- An engine oracle that always raises. -/
def c1engine : Engine := fun _ => Except.error "boom"

/-- An engine oracle that raises during flight integration. -/
def c8engine : Engine := fun _ => Except.error "integration diverged"

/-- The concrete stability response for the default rocket (no nose, no
fins, radius 1/40, center of mass 3/10): cp = 2233/15000 and margin
-2267/750, classified unstable. -/
def stabilityProbeResult : StabilityResponse :=
  { cp_position := 2233/15000, cg_position := 3/10,
    stability_margin := -2267/750, stable := false,
    recommendation := "Unstable - add weight to nose or move fins aft" }

/-- A constant normal-sampler oracle. -/
def zeroRand : RandOracle := fun _ _ _ => 0

/-- An engine oracle that fails for every request, so every Monte Carlo
iteration produces a failed result. -/
def c7engineFail : Engine := fun _ => Except.error "no solution"

/-- A two-iteration Monte Carlo request over the default simulation. -/
def c7reqTwo : MonteCarloRequest :=
  { base_simulation := defaultRequest, num_simulations := 2,
    wind_speed_std := 2, wind_direction_std := 15, mass_std := 1/100,
    thrust_std := 1/20 }

/-- The same Monte Carlo request with zero iterations. -/
def c7reqZero : MonteCarloRequest := { c7reqTwo with num_simulations := 0 }


theorem run_simulationHF_error_eq (eng : Engine) (req : SimulationRequest) (e : String)
    (heng : eng req = Except.error e) : run_simulationHF eng req = failedResult e := by
  unfold run_simulationHF
  rw [heng]

theorem run_simulationHF_ok_parts (eng : Engine) (req : SimulationRequest)
    (sol : FlightSolution) (heng : eng req = Except.ok sol)
    (hrne : req.output_sampling_rate ≠ 0) :
    (run_simulationHF eng req).trajectory =
      ((arangeQ 0 sol.t_final (1 / req.output_sampling_rate)).takeWhile
        sol.domainOk).map (trajPointHF sol) ∧
    (run_simulationHF eng req).events.head? =
      some { name := "liftoff", time := 0, altitude := some 0, velocity := none } ∧
    (run_simulationHF eng req).success = true := by
  unfold run_simulationHF
  rw [heng]
  simp only [pydiv, if_neg hrne]
  refine ⟨trivial, ?_, trivial⟩
  rfl

theorem pairwise_arangeQ (stop step : ℚ) (hstep : 0 < step) :
    List.Pairwise (· < ·) (arangeQ 0 stop step) := by
  unfold arangeQ
  rw [List.pairwise_map]
  refine (List.pairwise_lt_range _).imp ?_
  intro i j hij
  have hq : (i : ℚ) < j := by exact_mod_cast hij
  have := mul_lt_mul_of_pos_right hq hstep
  linarith

theorem mockStep_ok (c : MockCtx) (traj : List TrajectoryPoint) (t a : ℚ)
    (h : t = 0 ∨ traj ≠ []) : ∃ vz, mockStep c traj t a = Except.ok vz := by
  unfold mockStep
  by_cases h0 : t = 0
  · exact ⟨(0, 0), by simp [h0]⟩
  · have htraj : traj ≠ [] := h.resolve_left h0
    cases hl : traj.getLast? with
    | none =>
      exact absurd (List.getLast?_eq_none_iff.mp hl) htraj
    | some prev =>
      exact ⟨(prev.vz + a * c.dt, prev.z + (prev.vz + a * c.dt) * c.dt),
        by simp [h0, hl]⟩

theorem mockAccel_ok (c : MockCtx) (t : ℚ) (ht : 0 ≤ t) (hprop : 0 ≤ c.prop)
    (hmass : c.prop < c.mass) : ∃ a, mockAccel c t = Except.ok a := by
  unfold mockAccel
  by_cases hbt : t < c.bt
  · have hbt0 : (0 : ℚ) < c.bt := lt_of_le_of_lt ht hbt
    have hbtne : c.bt ≠ 0 := ne_of_gt hbt0
    have hdep : c.prop * t / c.bt ≤ c.prop := by
      rw [div_le_iff₀ hbt0]
      have := mul_le_mul_of_nonneg_left (le_of_lt hbt) hprop
      linarith
    have hden : c.mass - c.prop * t / c.bt ≠ 0 := by
      have : 0 < c.mass - c.prop * t / c.bt := by linarith
      exact ne_of_gt this
    refine ⟨c.thrust / (c.mass - c.prop * t / c.bt) - c.g, ?_⟩
    simp [hbt, pydiv, hbtne, hden, Except.map]
  · exact ⟨-c.g, by simp [hbt]⟩

theorem mockLoop_ok (c : MockCtx) (hdt : 0 < c.dt) (hprop : 0 ≤ c.prop)
    (hmass : c.prop < c.mass) :
    ∀ (fuel : ℕ) (traj : List TrajectoryPoint) (t : ℚ),
      (c.cap - t) / c.dt < fuel → 0 ≤ t → (t = 0 ∨ traj ≠ []) →
      ∃ out, mockLoop c fuel traj t = Except.ok out := by
  intro fuel
  induction fuel with
  | zero =>
    intro traj t hfuel ht _
    have hneg : c.cap - t < 0 := by
      by_contra hc
      push_neg at hc
      have := div_nonneg hc (le_of_lt hdt)
      norm_num at hfuel
      linarith
    have hcap : ¬ t < c.cap := by linarith
    exact ⟨(traj, t), by simp [mockLoop, hcap]⟩
  | succ fuel ih =>
    intro traj t hfuel ht hinv
    by_cases hcap : t < c.cap
    · obtain ⟨a, ha⟩ := mockAccel_ok c t ht hprop hmass
      obtain ⟨⟨v, z⟩, hvz⟩ := mockStep_ok c traj t a hinv
      by_cases hbrk : z < 0 ∧ c.bt < t
      · exact ⟨(traj, t), by simp [mockLoop, hcap, ha, hvz, hbrk]⟩
      · have hfuel' : (c.cap - (t + c.dt)) / c.dt < fuel := by
          have hrw : (c.cap - (t + c.dt)) / c.dt = (c.cap - t) / c.dt - 1 := by
            field_simp
            ring
          rw [hrw]
          push_cast at hfuel ⊢
          linarith
        obtain ⟨out, hout⟩ :=
          ih (traj ++ [mockPoint t v z a]) (t + c.dt) hfuel' (by linarith)
            (Or.inr (by simp))
        exact ⟨out, by simp [mockLoop, hcap, ha, hvz, hbrk, hout]⟩
    · exact ⟨(traj, t), by simp [mockLoop, hcap]⟩

theorem mockLoop_pairwise (c : MockCtx) (hdt : 0 < c.dt) :
    ∀ (fuel : ℕ) (traj : List TrajectoryPoint) (t : ℚ)
      (out : List TrajectoryPoint × ℚ),
      mockLoop c fuel traj t = Except.ok out →
      List.Pairwise timeLt traj → (∀ p ∈ traj, p.time < t) →
      List.Pairwise timeLt out.1 := by
  intro fuel
  induction fuel with
  | zero =>
    intro traj t out h hp _
    unfold mockLoop at h
    split at h
    · exact absurd h (by simp)
    · simp only [Except.ok.injEq] at h
      rw [← h]
      exact hp
  | succ fuel ih =>
    intro traj t out h hp hlt
    rw [mockLoop] at h
    split at h
    case isTrue hcap =>
      split at h
      · exact absurd h (by simp)
      case _ a ha =>
        split at h
        · exact absurd h (by simp)
        case _ vz hvz =>
          obtain ⟨v, z⟩ := vz
          split at h
          · simp only [Except.ok.injEq] at h
            rw [← h]
            exact hp
          · refine ih _ _ _ h ?_ ?_
            · refine List.pairwise_append.mpr ⟨hp, List.pairwise_singleton _ _, ?_⟩
              intro p hpmem q hqmem
              simp only [List.mem_singleton] at hqmem
              subst hqmem
              exact hlt p hpmem
            · intro p hpmem
              rcases List.mem_append.mp hpmem with hmem | hmem
              · exact lt_trans (hlt p hmem) (by linarith)
              · simp only [List.mem_singleton] at hmem
                subst hmem
                show t < t + c.dt
                linarith
    case isFalse =>
      simp only [Except.ok.injEq] at h
      rw [← h]
      exact hp

theorem pairwise_trajHF (sol : FlightSolution) (dt : ℚ) (hdt : 0 < dt) :
    List.Pairwise timeLt
      (((arangeQ 0 sol.t_final dt).takeWhile sol.domainOk).map (trajPointHF sol)) := by
  rw [List.pairwise_map]
  refine List.Pairwise.sublist ?_ ((pairwise_arangeQ sol.t_final dt hdt).imp ?_)
  · exact (List.takeWhile_prefix _).sublist
  · intro a b hab
    exact hab

/-- Claim C1: with the high-fidelity engine available, any exception raised
while building the environment, motor, rocket or flight — modelled as the
engine oracle returning an error — makes `run_simulation` return a
`SimulationResult` with `success = false`, the exception text inside
`message`, every numeric summary field zero, landing position `[0, 0]`,
and empty trajectory and event lists; the exception is absorbed, not
propagated. -/
theorem hf_exception_returns_zeroed_failure (eng : Engine) (req : SimulationRequest)
    (e : String) (heng : eng req = Except.error e) :
    run_simulation (some eng) req = Except.ok (run_simulationHF eng req) ∧
    (run_simulationHF eng req).success = false ∧
    (run_simulationHF eng req).message = "Simulation failed: " ++ e ∧
    (run_simulationHF eng req).apogee = 0 ∧
    (run_simulationHF eng req).apogee_time = 0 ∧
    (run_simulationHF eng req).max_velocity = 0 ∧
    (run_simulationHF eng req).max_velocity_time = 0 ∧
    (run_simulationHF eng req).max_acceleration = 0 ∧
    (run_simulationHF eng req).max_mach = 0 ∧
    (run_simulationHF eng req).flight_time = 0 ∧
    (run_simulationHF eng req).landing_velocity = 0 ∧
    (run_simulationHF eng req).landing_position = [0, 0] ∧
    (run_simulationHF eng req).out_of_rail_velocity = 0 ∧
    (run_simulationHF eng req).out_of_rail_stability = 0 ∧
    (run_simulationHF eng req).stability_margin_initial = 0 ∧
    (run_simulationHF eng req).stability_margin_burnout = 0 ∧
    (run_simulationHF eng req).cp_position = 0 ∧
    (run_simulationHF eng req).cg_position = 0 ∧
    (run_simulationHF eng req).trajectory = [] ∧
    (run_simulationHF eng req).events = [] := by
  refine ⟨rfl, ?_⟩
  rw [run_simulationHF_error_eq eng req e heng]
  exact ⟨rfl, rfl, rfl, rfl, rfl, rfl, rfl, rfl, rfl, rfl, rfl, rfl, rfl, rfl,
    rfl, rfl, rfl, rfl, rfl⟩

/-- Witness for C1 at the always-raising engine and the default request. -/
theorem hf_exception_returns_zeroed_failure_witness :
    c1engine defaultRequest = Except.error "boom" ∧
    (run_simulationHF c1engine defaultRequest).success = false ∧
    (run_simulationHF c1engine defaultRequest).message = "Simulation failed: boom" ∧
    (run_simulationHF c1engine defaultRequest).trajectory = [] ∧
    (run_simulationHF c1engine defaultRequest).events = [] := by
  obtain ⟨h0, h1, h2, h3, h4, h5, h6, h7, h8, h9, h10, h11, h12, h13, h14, h15,
    h16, h17, h18, h19⟩ :=
    hf_exception_returns_zeroed_failure c1engine defaultRequest "boom" rfl
  exact ⟨rfl, h1, h2, h18, h19⟩

theorem calculate_stability_ok_shape (rc : RocketConfig) (res : StabilityResponse)
    (h : calculate_stability rc = Except.ok res) :
    res.stable = decide (1 < res.stability_margin) ∧
    res.recommendation =
      (if 3/2 < res.stability_margin then "Stable"
       else if 1 < res.stability_margin then "Marginally stable"
       else "Unstable - add weight to nose or move fins aft") := by
  unfold calculate_stability at h
  dsimp only at h
  repeat' split at h
  all_goals
    first
      | exact Except.noConfusion h
      | (simp only [Except.ok.injEq] at h
         subst h
         refine ⟨rfl, ?_⟩
         dsimp only
         split <;> first | rfl | linarith)

/-- Claim C5: whenever the stability endpoint returns, its textual
classification follows the returned margin exactly: margin above 1.5 gives
"Stable", margin in (1, 1.5] gives "Marginally stable" (so a margin of
exactly 1.5 is not "Stable"), and margin at or below 1 (including exactly
1) gives the "Unstable" recommendation to add nose weight or move the fins
aft. -/
theorem stability_classification_thresholds (rc : RocketConfig)
    (res : StabilityResponse) (h : calculate_stability rc = Except.ok res) :
    (3/2 < res.stability_margin → res.recommendation = "Stable") ∧
    (1 < res.stability_margin ∧ res.stability_margin ≤ 3/2 →
      res.recommendation = "Marginally stable") ∧
    (res.stability_margin ≤ 1 →
      res.recommendation = "Unstable - add weight to nose or move fins aft") := by
  obtain ⟨-, hrec⟩ := calculate_stability_ok_shape rc res h
  refine ⟨?_, ?_, ?_⟩
  · intro hm
    rw [hrec, if_pos hm]
  · intro hm
    rw [hrec, if_neg (by linarith [hm.2]), if_pos hm.1]
  · intro hm
    rw [hrec, if_neg (by linarith), if_neg (by linarith)]

theorem calculate_stability_default :
    calculate_stability defaultRocket = Except.ok stabilityProbeResult := by
  unfold calculate_stability defaultRocket stabilityProbeResult
  norm_num [pydiv]

/-- Witness for C5 at the default rocket (no fins, margin below 1, so the
"Unstable" clause is exercised). -/
theorem stability_classification_thresholds_witness :
    calculate_stability defaultRocket = Except.ok stabilityProbeResult ∧
    ((3/2 < stabilityProbeResult.stability_margin →
        stabilityProbeResult.recommendation = "Stable") ∧
     (1 < stabilityProbeResult.stability_margin ∧
        stabilityProbeResult.stability_margin ≤ 3/2 →
        stabilityProbeResult.recommendation = "Marginally stable") ∧
     (stabilityProbeResult.stability_margin ≤ 1 →
        stabilityProbeResult.recommendation =
          "Unstable - add weight to nose or move fins aft")) :=
  ⟨calculate_stability_default,
   stability_classification_thresholds defaultRocket stabilityProbeResult
     calculate_stability_default⟩

/-- Claim C9: the boolean `stable` field of the stability endpoint is true
exactly when the returned margin exceeds 1.0; consequently any margin in
the interval (1, 1.5] is reported simultaneously as `stable = true` and
"Marginally stable" — the flag's threshold is 1.0, not the "Stable"
classification threshold of 1.5. -/
theorem stable_flag_matches_margin_gt_one (rc : RocketConfig)
    (res : StabilityResponse) (h : calculate_stability rc = Except.ok res) :
    (res.stable = true ↔ 1 < res.stability_margin) ∧
    (1 < res.stability_margin → res.stability_margin ≤ 3/2 →
      res.stable = true ∧ res.recommendation = "Marginally stable") := by
  obtain ⟨hst, hrec⟩ := calculate_stability_ok_shape rc res h
  constructor
  · rw [hst]
    exact decide_eq_true_iff
  · intro h1 h2
    refine ⟨by rw [hst]; exact decide_eq_true h1, ?_⟩
    rw [hrec, if_neg (by linarith), if_pos h1]

/-- Witness for C9 at the default rocket. -/
theorem stable_flag_matches_margin_gt_one_witness :
    calculate_stability defaultRocket = Except.ok stabilityProbeResult ∧
    ((stabilityProbeResult.stable = true ↔ 1 < stabilityProbeResult.stability_margin) ∧
     (1 < stabilityProbeResult.stability_margin →
        stabilityProbeResult.stability_margin ≤ 3/2 →
        stabilityProbeResult.stable = true ∧
        stabilityProbeResult.recommendation = "Marginally stable")) :=
  ⟨calculate_stability_default,
   stable_flag_matches_margin_gt_one defaultRocket stabilityProbeResult
     calculate_stability_default⟩

/-- Claim C10: the `thrust_std` field of a Monte Carlo request is never
read by the endpoint — two requests identical except for `thrust_std`,
evaluated against the same engine and the same normal-sampler draws,
produce identical results; only wind speed, wind direction and rocket mass
are ever perturbed. -/
theorem thrust_std_has_no_effect (sqrtFn : ℚ → ℚ) (engine : Option Engine)
    (nrand : RandOracle) (base : SimulationRequest) (n : ℕ)
    (wss wds ms t1 t2 : ℚ) :
    monte_carlo sqrtFn engine nrand
      { base_simulation := base, num_simulations := n, wind_speed_std := wss,
        wind_direction_std := wds, mass_std := ms, thrust_std := t1 } =
    monte_carlo sqrtFn engine nrand
      { base_simulation := base, num_simulations := n, wind_speed_std := wss,
        wind_direction_std := wds, mass_std := ms, thrust_std := t2 } := by
  cases engine <;> rfl

/-- Claim C4 counterexample: for burn time 1/10 (which is positive, with
nonnegative average thrust and no explicit curve) the synthesized curve's
time points are NOT strictly increasing: the second point sits at the
fixed time 0.02 while the third sits at `burn_time * 0.1 = 0.01`. -/
theorem synthesized_curve_not_monotonic_short_burn :
    0 < c4motor.burn_time ∧ 0 ≤ c4motor.avg_thrust ∧ c4motor.thrust_curve = none ∧
    ¬ List.Pairwise curveTimeLt (motorThrustSource c4motor) := by
  refine ⟨by norm_num [c4motor, defaultMotor], by norm_num [c4motor, defaultMotor],
    rfl, ?_⟩
  intro h
  have hc := h.chain'
  norm_num [motorThrustSource, syntheticThrustCurve, c4motor, defaultMotor,
    List.chain'_cons, curveTimeLt] at hc

/-- Claim C4, amended: for every motor with no explicit thrust curve,
nonnegative average thrust and burn time above 0.2 (rather than merely
positive), the synthesized thrust curve starts at zero thrust, ends at
zero thrust, and has strictly increasing time points.  (For burn times in
(0, 0.2] the fixed second time point 0.02 is not below `burn_time * 0.1`,
so strict monotonicity fails.) -/
theorem synthesized_curve_zero_ends_monotonic_long_burn (c : MotorConfig)
    (hnone : c.thrust_curve = none) (hbt : 1/5 < c.burn_time)
    (_hthrust : 0 ≤ c.avg_thrust) :
    (motorThrustSource c).head?.map Prod.snd = some 0 ∧
    (motorThrustSource c).getLast?.map Prod.snd = some 0 ∧
    List.Pairwise curveTimeLt (motorThrustSource c) := by
  have hsrc : motorThrustSource c = syntheticThrustCurve c := by
    unfold motorThrustSource
    rw [hnone]
  rw [hsrc]
  unfold syntheticThrustCurve
  refine ⟨rfl, by simp, ?_⟩
  rw [← List.chain'_iff_pairwise]
  simp only [List.chain'_cons, List.chain'_singleton, and_true]
  refine ⟨by norm_num, by unfold curveTimeLt; dsimp only; linarith, ?_, ?_, ?_⟩ <;>
    (unfold curveTimeLt; dsimp only; linarith)

/-- Witness for the amended C4 at burn time 2. -/
theorem synthesized_curve_zero_ends_monotonic_long_burn_witness :
    c4longMotor.thrust_curve = none ∧ 1/5 < c4longMotor.burn_time ∧
    0 ≤ c4longMotor.avg_thrust ∧
    ((motorThrustSource c4longMotor).head?.map Prod.snd = some 0 ∧
     (motorThrustSource c4longMotor).getLast?.map Prod.snd = some 0 ∧
     List.Pairwise curveTimeLt (motorThrustSource c4longMotor)) :=
  ⟨rfl, by norm_num [c4longMotor, defaultMotor], by norm_num [c4longMotor, defaultMotor],
   synthesized_curve_zero_ends_monotonic_long_burn c4longMotor rfl
     (by norm_num [c4longMotor, defaultMotor]) (by norm_num [c4longMotor, defaultMotor])⟩

theorem mockLoop_exit (c : MockCtx) (fuel : ℕ) (traj : List TrajectoryPoint)
    (t : ℚ) (h : ¬ t < c.cap) : mockLoop c fuel traj t = Except.ok (traj, t) := by
  cases fuel <;> simp [mockLoop, h]

theorem create_mock_result_c3req :
    (create_mock_result c3req).map successMessage =
      Except.ok (true, "Mock simulation (RocketPy not installed)") := by
  have havg : ¬ (mockAvgMass c3req = 0) := by
    norm_num [mockAvgMass, mockLiftoffMass, c3req, defaultRequest, defaultRocket,
      defaultMotor]
  have hrne : ¬ (c3req.output_sampling_rate = 0) := by
    norm_num [c3req, defaultRequest]
  have hcap : ¬ ((0:ℚ) < (mockCtxOf c3req (1 / c3req.output_sampling_rate)).cap) := by
    norm_num [mockCtxOf, mockCap, mockApogeeTime, mockCoastTime, mockVBurnout,
      mockABurn, mockAvgMass, mockLiftoffMass, c3req, defaultRequest, defaultRocket,
      defaultMotor]
  unfold create_mock_result
  rw [if_neg havg, if_neg hrne, mockLoop_exit _ _ _ _ hcap]
  rfl

/-- Claim C3 counterexample: a motor with burn time -1 (a required positive
quantity that is not positive) is accepted by construction — pydantic
declares no value validators — and the configuration reaches the
simulation path, where the fallback simulates it and reports success, so
no `InvalidConfiguration` error is ever surfaced. -/
theorem invalid_motor_config_reaches_simulation :
    c3req.rocket.motor.burn_time ≤ 0 ∧
    MotorConfig.validateConfig c3req.rocket.motor = Except.ok c3req.rocket.motor ∧
    (create_mock_result c3req).map successMessage =
      Except.ok (true, "Mock simulation (RocketPy not installed)") :=
  ⟨by norm_num [c3req, defaultRequest, defaultRocket, defaultMotor], rfl,
   create_mock_result_c3req⟩

/-- Claim C3, amended: construction never fails — the configuration schema
performs no value validation, so malformed thrust curves, non-positive
quantities, fin counts below 1 and arbitrary parachute trigger strings are
all accepted — and such configurations reach the simulation path: the
fallback simulates a motor with burn time -1 and returns success. -/
theorem schema_accepts_all_values_no_invalid_configuration :
    (∀ m : MotorConfig, m.validateConfig = Except.ok m) ∧
    (∀ f : FinConfig, f.validateConfig = Except.ok f) ∧
    (∀ p : ParachuteConfig, p.validateConfig = Except.ok p) ∧
    c3req.rocket.motor.burn_time ≤ 0 ∧
    (create_mock_result c3req).map successMessage =
      Except.ok (true, "Mock simulation (RocketPy not installed)") :=
  ⟨fun _ => rfl, fun _ => rfl, fun _ => rfl,
   by norm_num [c3req, defaultRequest, defaultRocket, defaultMotor],
   create_mock_result_c3req⟩

/-- Claim C7, amended to the engine-available branch: iterations whose
result has `success = false` are dropped from aggregation without retry —
the outcome depends only on the list of successful runs — and when no
iteration succeeds (including `num_simulations = 0`) the endpoint returns
count 0, all statistics zero and an empty landing-position list instead of
raising. -/
theorem montecarlo_drops_failures_zero_case :
    (∀ (sq : ℚ → ℚ) (e1 e2 : Engine) (n1 n2 : RandOracle)
        (m1 m2 : MonteCarloRequest),
      (mcRuns e1 n1 m1).filter (fun r => r.success) =
        (mcRuns e2 n2 m2).filter (fun r => r.success) →
      monte_carloHF sq e1 n1 m1 = monte_carloHF sq e2 n2 m2) ∧
    (∀ (sq : ℚ → ℚ) (e : Engine) (n : RandOracle) (m : MonteCarloRequest),
      (mcRuns e n m).filter (fun r => r.success) = [] →
      monte_carloHF sq e n m =
        { success := false, num_simulations := 0, apogee_mean := 0,
          apogee_std := 0, apogee_min := 0, apogee_max := 0,
          landing_dispersion_mean := 0, landing_dispersion_std := 0,
          landing_positions := [] }) := by
  constructor
  · intro sq e1 e2 n1 n2 m1 m2 h
    unfold monte_carloHF
    rw [h]
  · intro sq e n m h
    unfold monte_carloHF
    rw [h]
    rfl

/-- Witness for the amended C7: with an engine that fails every iteration,
a two-iteration batch aggregates to the same zero result as an empty
batch. -/
theorem montecarlo_drops_failures_zero_case_witness :
    monte_carloHF (fun q => q) c7engineFail zeroRand c7reqTwo =
      monte_carloHF (fun q => q) c7engineFail zeroRand c7reqZero ∧
    monte_carloHF (fun q => q) c7engineFail zeroRand c7reqTwo =
      { success := false, num_simulations := 0, apogee_mean := 0,
        apogee_std := 0, apogee_min := 0, apogee_max := 0,
        landing_dispersion_mean := 0, landing_dispersion_std := 0,
        landing_positions := [] } :=
  ⟨montecarlo_drops_failures_zero_case.1 (fun q => q) c7engineFail c7engineFail
      zeroRand zeroRand c7reqTwo c7reqZero rfl,
   montecarlo_drops_failures_zero_case.2 (fun q => q) c7engineFail zeroRand
      c7reqTwo rfl⟩

/-- Claim C7 counterexample: with no engine installed, the endpoint's mock
branch ignores the iteration outcomes entirely — for a request with
`num_simulations = 0` it still reports apogee mean 500 (and other nonzero
canned statistics), contradicting the claim that all statistics are zero
whenever zero iterations succeed. -/
theorem montecarlo_mock_mode_nonzero_stats :
    c7reqZero.num_simulations = 0 ∧
    (monte_carlo (fun q => q) none zeroRand c7reqZero).num_simulations = 0 ∧
    (monte_carlo (fun q => q) none zeroRand c7reqZero).apogee_mean = 500 ∧
    (monte_carlo (fun q => q) none zeroRand c7reqZero).apogee_mean ≠ 0 ∧
    (monte_carlo (fun q => q) none zeroRand c7reqZero).landing_positions = [] :=
  ⟨rfl, rfl, rfl, by norm_num [monte_carlo, monte_carloMock], rfl⟩

/-- Claim C2 counterexample: the fallback path can raise.  For a request
whose rocket mass, propellant mass and motor dry mass are all zero the
liftoff mass is zero, so the burn-acceleration division
`thrust / (mass - propellant_mass / 2)` is a float division by zero and
`run_simulation` propagates it (the mock branch is called outside the
`try` block). -/
theorem mock_result_can_raise_div_by_zero :
    run_simulation none c2zeroReq = Except.error "float division by zero" := by
  have h : mockAvgMass c2zeroReq = 0 := by
    norm_num [mockAvgMass, mockLiftoffMass, c2zeroReq, defaultRequest,
      defaultRocket, defaultMotor]
  show create_mock_result c2zeroReq = _
  unfold create_mock_result
  rw [if_pos h]

/-- Claim C2, amended: for every request with a positive output sampling
rate, nonnegative propellant mass, and positive combined rocket dry mass
plus motor casing mass, the fallback path never fails: it returns a
result with `success = true` and the message stating the result is a mock
approximation, and it does not raise.  (Outside these bounds it can raise
a float division by zero, as the counterexample shows.) -/
theorem mock_result_ok_under_positive_inputs (req : SimulationRequest)
    (hrate : 0 < req.output_sampling_rate)
    (hprop : 0 ≤ req.rocket.motor.propellant_mass)
    (hdry : 0 < req.rocket.mass + req.rocket.motor.dry_mass) :
    (create_mock_result req).map successMessage =
      Except.ok (true, "Mock simulation (RocketPy not installed)") := by
  have havg : ¬ (mockAvgMass req = 0) := by
    unfold mockAvgMass mockLiftoffMass
    intro h0
    linarith
  have hrne : ¬ (req.output_sampling_rate = 0) := ne_of_gt hrate
  have hdt : (0:ℚ) < 1 / req.output_sampling_rate := by positivity
  have hfb : ((mockCtxOf req (1 / req.output_sampling_rate)).cap - 0) /
      (mockCtxOf req (1 / req.output_sampling_rate)).dt <
      ((mockFuel req (1 / req.output_sampling_rate) : ℕ) : ℚ) := by
    show (mockCap req - 0) / (1 / req.output_sampling_rate) <
      (((Int.ceil (mockCap req / (1 / req.output_sampling_rate))).toNat + 1 : ℕ) : ℚ)
    have h1 : mockCap req / (1 / req.output_sampling_rate) ≤
        ((Int.ceil (mockCap req / (1 / req.output_sampling_rate)) : ℤ) : ℚ) :=
      Int.le_ceil _
    have h2 : ((Int.ceil (mockCap req / (1 / req.output_sampling_rate)) : ℤ) : ℚ) ≤
        (((Int.ceil (mockCap req / (1 / req.output_sampling_rate))).toNat : ℕ) : ℚ) := by
      exact_mod_cast Int.self_le_toNat _
    push_cast
    linarith
  obtain ⟨⟨traj, tEnd⟩, hout⟩ :=
    mockLoop_ok (mockCtxOf req (1 / req.output_sampling_rate)) hdt hprop
      (by
        show req.rocket.motor.propellant_mass < mockLiftoffMass req
        unfold mockLiftoffMass
        linarith)
      (mockFuel req (1 / req.output_sampling_rate)) [] 0 hfb le_rfl (Or.inl rfl)
  unfold create_mock_result
  rw [if_neg havg, if_neg hrne, hout]
  rfl

theorem create_mock_result_probe :
    create_mock_result mockProbeReq = Except.ok mockProbeResult := by
  have havg : ¬ (mockAvgMass mockProbeReq = 0) := by
    norm_num [mockAvgMass, mockLiftoffMass, mockProbeReq, defaultRequest,
      defaultRocket, defaultMotor]
  have hrne : ¬ (mockProbeReq.output_sampling_rate = 0) := by
    norm_num [mockProbeReq, defaultRequest]
  have hcap : ¬ ((0:ℚ) <
      (mockCtxOf mockProbeReq (1 / mockProbeReq.output_sampling_rate)).cap) := by
    norm_num [mockCtxOf, mockCap, mockApogeeTime, mockCoastTime, mockVBurnout,
      mockABurn, mockAvgMass, mockLiftoffMass, mockProbeReq, defaultRequest,
      defaultRocket, defaultMotor]
  unfold create_mock_result
  rw [if_neg havg, if_neg hrne, mockLoop_exit _ _ _ _ hcap]
  unfold mockProbeResult
  norm_num [mockApogee, mockApogeeTime, mockHBurnout, mockHCoast, mockCoastTime,
    mockVBurnout, mockABurn, mockAvgMass, mockLiftoffMass, mockProbeReq,
    defaultRequest, defaultRocket, defaultMotor]

/-- Witness for the amended C2 at a concrete request with positive rate
and masses. -/
theorem mock_result_ok_under_positive_inputs_witness :
    0 < mockProbeReq.output_sampling_rate ∧
    0 ≤ mockProbeReq.rocket.motor.propellant_mass ∧
    0 < mockProbeReq.rocket.mass + mockProbeReq.rocket.motor.dry_mass ∧
    (create_mock_result mockProbeReq).map successMessage =
      Except.ok (true, "Mock simulation (RocketPy not installed)") :=
  ⟨by norm_num [mockProbeReq, defaultRequest],
   by norm_num [mockProbeReq, defaultRequest, defaultRocket, defaultMotor],
   by norm_num [mockProbeReq, defaultRequest, defaultRocket, defaultMotor],
   mock_result_ok_under_positive_inputs mockProbeReq
     (by norm_num [mockProbeReq, defaultRequest])
     (by norm_num [mockProbeReq, defaultRequest, defaultRocket, defaultMotor])
     (by norm_num [mockProbeReq, defaultRequest, defaultRocket, defaultMotor])⟩

/-- Claim C6: whenever the fallback path returns a result, its reported
apogee and apogee time equal the closed-form values stated by the claim:
burn acceleration `a = thrust / (liftoffMass - propellantMass / 2) - g`
with liftoff mass the rocket dry mass plus propellant mass plus motor dry
mass, burnout velocity `a * burnTime`, burnout altitude
`a * burnTime^2 / 2`, coast time `v / g`, coast altitude
`v * coastTime - g * coastTime^2 / 2`, apogee the sum of the two
altitudes, and apogee time `burnTime + coastTime`. -/
theorem mock_apogee_closed_form (req : SimulationRequest) (res : SimulationResult)
    (h : create_mock_result req = Except.ok res) :
    res.apogee = specApogeeFormula req ∧
    res.apogee_time = specApogeeTimeFormula req := by
  unfold create_mock_result at h
  split at h
  · exact Except.noConfusion h
  · split at h
    · exact Except.noConfusion h
    · split at h
      · exact Except.noConfusion h
      · simp only [Except.ok.injEq] at h
        subst h
        constructor
        · show mockApogee req = specApogeeFormula req
          simp only [mockApogee, mockHBurnout, mockHCoast, mockVBurnout,
            mockCoastTime, mockABurn, mockAvgMass, mockLiftoffMass,
            specApogeeFormula]
          ring
        · show mockApogeeTime req = specApogeeTimeFormula req
          simp only [mockApogeeTime, mockCoastTime, mockVBurnout, mockABurn,
            mockAvgMass, mockLiftoffMass, specApogeeTimeFormula]

/-- Witness for C6 at the concrete probe request. -/
theorem mock_apogee_closed_form_witness :
    create_mock_result mockProbeReq = Except.ok mockProbeResult ∧
    (mockProbeResult.apogee = specApogeeFormula mockProbeReq ∧
     mockProbeResult.apogee_time = specApogeeTimeFormula mockProbeReq) :=
  ⟨create_mock_result_probe,
   mock_apogee_closed_form mockProbeReq mockProbeResult create_mock_result_probe⟩

/-- Claim C8, amended: for every request with positive output sampling
rate, whenever `simulate` returns a result with `success = true` — on
either path — the trajectory's time values are strictly increasing and the
first event is "liftoff" at time 0 with altitude 0.  (On a failed
high-fidelity run the events list is empty, so the claim's unconditional
form fails; see the counterexample.) -/
theorem simulate_success_monotone_trajectory_liftoff_first
    (engine : Option Engine) (req : SimulationRequest) (res : SimulationResult)
    (hrate : 0 < req.output_sampling_rate)
    (hok : run_simulation engine req = Except.ok res)
    (hsuc : res.success = true) :
    List.Pairwise timeLt res.trajectory ∧
    res.events.head? =
      some { name := "liftoff", time := 0, altitude := some 0, velocity := none } := by
  cases engine with
  | none =>
    simp only [run_simulation] at hok
    unfold create_mock_result at hok
    split at hok
    · exact Except.noConfusion hok
    · split at hok
      · exact Except.noConfusion hok
      · split at hok
        · exact Except.noConfusion hok
        · rename_i traj tEnd hloop
          simp only [Except.ok.injEq] at hok
          subst hok
          constructor
          · exact mockLoop_pairwise _ (by exact one_div_pos.mpr hrate) _ _ _ _
              hloop List.Pairwise.nil (by simp)
          · rfl
  | some eng =>
    simp only [run_simulation, Except.ok.injEq] at hok
    subst hok
    cases heng : eng req with
    | error e =>
      exfalso
      rw [run_simulationHF_error_eq eng req e heng] at hsuc
      exact absurd hsuc (by simp [failedResult])
    | ok sol =>
      obtain ⟨htraj, hevents, -⟩ :=
        run_simulationHF_ok_parts eng req sol heng (ne_of_gt hrate)
      exact ⟨htraj ▸ pairwise_trajHF sol _ (one_div_pos.mpr hrate), hevents⟩

/-- Witness for the amended C8 on the fallback path at the probe request. -/
theorem simulate_success_monotone_trajectory_liftoff_first_witness :
    0 < mockProbeReq.output_sampling_rate ∧
    run_simulation none mockProbeReq = Except.ok mockProbeResult ∧
    mockProbeResult.success = true ∧
    (List.Pairwise timeLt mockProbeResult.trajectory ∧
     mockProbeResult.events.head? =
       some { name := "liftoff", time := 0, altitude := some 0, velocity := none }) :=
  ⟨by norm_num [mockProbeReq, defaultRequest],
   create_mock_result_probe,
   rfl,
   simulate_success_monotone_trajectory_liftoff_first none mockProbeReq
     mockProbeResult (by norm_num [mockProbeReq, defaultRequest])
     create_mock_result_probe rfl⟩

/-- Claim C8 counterexample: when the engine raises, `simulate` still
returns (a failed result), but its events list is empty — there is no
first "liftoff" event — so the claim's unconditional form is false. -/
theorem simulate_failure_has_no_liftoff_event :
    0 < defaultRequest.output_sampling_rate ∧
    run_simulation (some c8engine) defaultRequest =
      Except.ok (failedResult "integration diverged") ∧
    (failedResult "integration diverged").events = [] ∧
    ¬ ((failedResult "integration diverged").events.head? =
        some { name := "liftoff", time := 0, altitude := some 0, velocity := none }) := by
  refine ⟨by norm_num [defaultRequest], rfl, rfl, by simp [failedResult]⟩
